import Mathlib

/-!
Shallow embedding of the bao-vhost-frontend control plane (src/src/mmio.rs,
src/src/device.rs, src/src/frontend.rs) and proofs of the specification
claims about it.  Machine integers are modelled as `Nat` with explicit
`% 2^w` at the points where the Rust code truncates; fallible Rust code
returns `Option`/`Except`, with `Option.none` standing for a Rust panic
(out-of-bounds slice index or a failed `unwrap`).
-/

namespace BaoVhost

/-! ## Register offsets and feature bits (virtio_bindings / vhost crates) -/

def VIRTIO_MMIO_MAGIC_VALUE : Nat := 0x000
def VIRTIO_MMIO_VERSION : Nat := 0x004
def VIRTIO_MMIO_DEVICE_ID : Nat := 0x008
def VIRTIO_MMIO_VENDOR_ID : Nat := 0x00c
def VIRTIO_MMIO_DEVICE_FEATURES : Nat := 0x010
def VIRTIO_MMIO_DEVICE_FEATURES_SEL : Nat := 0x014
def VIRTIO_MMIO_DRIVER_FEATURES : Nat := 0x020
def VIRTIO_MMIO_DRIVER_FEATURES_SEL : Nat := 0x024
def VIRTIO_MMIO_QUEUE_SEL : Nat := 0x030
def VIRTIO_MMIO_QUEUE_NUM_MAX : Nat := 0x034
def VIRTIO_MMIO_QUEUE_NUM : Nat := 0x038
def VIRTIO_MMIO_QUEUE_READY : Nat := 0x044
def VIRTIO_MMIO_QUEUE_NOTIFY : Nat := 0x050
def VIRTIO_MMIO_INTERRUPT_STATUS : Nat := 0x060
def VIRTIO_MMIO_INTERRUPT_ACK : Nat := 0x064
def VIRTIO_MMIO_STATUS : Nat := 0x070
def VIRTIO_MMIO_QUEUE_DESC_LOW : Nat := 0x080
def VIRTIO_MMIO_QUEUE_DESC_HIGH : Nat := 0x084
def VIRTIO_MMIO_QUEUE_AVAIL_LOW : Nat := 0x090
def VIRTIO_MMIO_QUEUE_AVAIL_HIGH : Nat := 0x094
def VIRTIO_MMIO_QUEUE_USED_LOW : Nat := 0x0a0
def VIRTIO_MMIO_QUEUE_USED_HIGH : Nat := 0x0a4
def VIRTIO_MMIO_CONFIG_GENERATION : Nat := 0x0fc
def VIRTIO_MMIO_INT_VRING : Nat := 1
def VIRTIO_F_VERSION_1 : Nat := 32
def VIRTIO_F_IOMMU_PLATFORM : Nat := 33
def VHOST_USER_CONFIG_OFFSET : Nat := 0x100

/-- Modelled from the spec: the numeric values of the `bao_sys::defines` I/O
direction constants (`BAO_IO_READ`, `BAO_IO_WRITE`, `BAO_IO_ASK`) are not in
src/; the spec (section 6) only lists `op u32 (READ|WRITE|ASK)`.  The claims
depend only on the three being distinct. -/
def BAO_IO_READ : Nat := 0

/-- Modelled from the spec: see `BAO_IO_READ`. -/
def BAO_IO_WRITE : Nat := 1

/-- Modelled from the spec: see `BAO_IO_READ`. -/
def BAO_IO_ASK : Nat := 2

/-- Modelled from the spec: the numeric values of the `bao_sys::defines`
ioeventfd flag constants are not in src/; the spec (section 4.1) names the
flags DATAMATCH and DEASSIGN.  The claims depend only on the two being
distinct. -/
def BAO_IOEVENTFD_FLAG_DATAMATCH : Nat := 1

/-- Modelled from the spec: see `BAO_IOEVENTFD_FLAG_DATAMATCH`. -/
def BAO_IOEVENTFD_FLAG_DEASSIGN : Nat := 2

/-! ## Error type (bao_sys::error::Error, the variants used by the claims) -/

/-- The error variants of `bao_sys::error::Error` that the embedded code can
produce.  The payload-free vhost variants drop the wrapped library error. -/
inductive Error where
  | InvalidFeatureSel (sel : Nat)
  | InvalidMmioAddr (op : String) (offset : Nat)
  | InvalidMmioDir (op : Nat)
  | MmioLegacyNotSupported
  | IommuPlatformNotSupported
  | VhostFrontendError
  | VhostFrontendActivateError
  | BaoDevNotSupported (compatible : String)
  | MmapGuestMemoryFailed
  | OpenFdFailed (name : String)
deriving Repr, DecidableEq

/-! ## State (mmio.rs) -/

/-- `struct VirtQueue` of mmio.rs.  The kick `EventFd` is an abstract token
(a `Nat` identifier); cloning an eventfd yields the same token. -/
structure VirtQueue where
  ready : Nat
  size : Nat
  size_max : Nat
  desc_lo : Nat
  desc_hi : Nat
  avail_lo : Nat
  avail_hi : Nat
  used_lo : Nat
  used_hi : Nat
  kick : Nat
deriving Repr, DecidableEq

/-- A `virtio_queue::Queue` as configured by `init_vq`: created with
`Queue::new(size)`, then the three ring addresses and `next_avail = 0` are
set.  The two halves passed to the setters reassemble into the 64-bit
addresses stored here. -/
structure VQueue where
  size : Nat
  desc_table : Nat
  avail_ring : Nat
  used_ring : Nat
  next_avail : Nat
deriving Repr, DecidableEq

/-- `virtio_queue::Queue::new(max_size: u16)` of the virtio-queue collaborator
crate: fails (so the `.unwrap()` in `init_vq` panics) unless `max_size` is a
non-zero power of two at most 32768. -/
def VQueue.new (max_size : Nat) : Option VQueue :=
  if max_size = 0 ∨ 32768 < max_size ∨ (max_size &&& (max_size - 1)) ≠ 0 then
    none
  else
    some { size := max_size, desc_table := 0, avail_ring := 0, used_ring := 0,
           next_avail := 0 }

/-- `struct BaoMmio` of mmio.rs.  The `regions` vector and the `guest`
back-reference are omitted: no claim depends on them (`regions` only feeds
the opaque guest-memory handle passed to `activate`). -/
structure BaoMmio where
  addr : Nat
  magic : List Nat
  version : Nat
  vendor_id : Nat
  status : Nat
  queue_sel : Nat
  device_features_sel : Nat
  driver_features : Nat
  driver_features_sel : Nat
  interrupt_state : Nat
  queues_count : Nat
  queues : List (Nat × VQueue × Nat)
  vq : List VirtQueue
deriving Repr, DecidableEq

/-- The `bao_sys::types::BaoIoEventFd` record passed to `create_ioeventfd`. -/
structure BaoIoEventFd where
  fd : Nat
  flags : Nat
  addr : Nat
  len : Nat
  data : Nat
deriving Repr, DecidableEq

/-- The `bao_sys::types::BaoIoRequest` fields the MMIO engine consumes. -/
structure BaoIoRequest where
  reg_off : Nat
  op : Nat
  value : Nat
  access_width : Nat
deriving Repr, DecidableEq

/-- The capabilities the MMIO engine consumes from the vhost-user `Generic`
backend client: `device_type()`, `device_features()` and `read_config`
(modelled as a pure function from offset and width to the bytes read). -/
structure Generic where
  device_type : Nat
  device_features : Nat
  read_config : Nat → Nat → Nat

/-- An observable call made on the backend client by the MMIO engine. -/
inductive BackendCall where
  | negotiateFeatures (features : Nat) (protocolFeatures : Nat)
  | activate (queues : List (Nat × VQueue × Nat))
deriving Repr, DecidableEq

/-! ## Construction and teardown (BaoMmio::new, impl Drop) -/

/-- `u32::from_le_bytes` on the four magic bytes. -/
def u32FromLeBytes (l : List Nat) : Nat :=
  l.getD 0 0 + l.getD 1 0 * 2 ^ 8 + l.getD 2 0 * 2 ^ 16 + l.getD 3 0 * 2 ^ 24

/-- `BaoMmio::new` (success path): `sizes` is `gdev.queue_max_sizes()`.
Returns the constructed state together with the ASSIGN `BaoIoEventFd`
records passed to `create_ioeventfd`, one per virtqueue, in index order.
The fresh kick eventfd of queue `k` is the abstract token `k`.  Note the
`desc_lo := 77` initialiser, taken verbatim from the source. -/
def BaoMmio.new (sizes : List Nat) (addr : Nat) : BaoMmio × List BaoIoEventFd :=
  ({ addr := addr
     magic := [0x76, 0x69, 0x72, 0x74]
     version := 2
     vendor_id := 0x4d564b4c
     status := 0
     queue_sel := 0
     device_features_sel := 0
     driver_features := 0
     driver_features_sel := 0
     interrupt_state := 0
     queues_count := sizes.length
     queues := []
     vq := sizes.enum.map fun p =>
       { ready := 0, size := 0, size_max := p.2 % 2 ^ 32, desc_lo := 77,
         desc_hi := 0, avail_lo := 0, avail_hi := 0, used_lo := 0,
         used_hi := 0, kick := p.1 } },
   sizes.enum.map fun p =>
     { fd := p.1, flags := BAO_IOEVENTFD_FLAG_DATAMATCH,
       addr := addr + VIRTIO_MMIO_QUEUE_NOTIFY, len := 4, data := p.1 })

/-- `impl Drop for BaoMmio`: the DEASSIGN `BaoIoEventFd` records passed to
`create_ioeventfd`, one per entry of `vq`, in index order. -/
def BaoMmio.dropDeassigns (s : BaoMmio) : List BaoIoEventFd :=
  s.vq.enum.map fun p =>
    { fd := p.2.kick, flags := BAO_IOEVENTFD_FLAG_DEASSIGN,
      addr := s.addr + VIRTIO_MMIO_QUEUE_NOTIFY, len := 4, data := p.1 }

/-! ## Reads (BaoMmio::io_read) -/

/-- `BaoMmio::io_read`.  `none` is a panic: the source indexes
`self.vq[self.queue_sel as usize]` before decoding the offset, so an
out-of-range `queue_sel` panics for every offset.  The Rust `match` on
`offset as u32` is rendered as the equivalent chain of equality tests. -/
def BaoMmio.io_read (s : BaoMmio) (g : Generic) (offset : Nat) :
    Option (Except Error Nat) :=
  match s.vq[s.queue_sel]? with
  | none => none
  | some vq =>
    let off := offset % 2 ^ 32
    some <|
      if off = VIRTIO_MMIO_MAGIC_VALUE then .ok (u32FromLeBytes s.magic)
      else if off = VIRTIO_MMIO_VERSION then .ok s.version
      else if off = VIRTIO_MMIO_DEVICE_ID then .ok g.device_type
      else if off = VIRTIO_MMIO_VENDOR_ID then .ok s.vendor_id
      else if off = VIRTIO_MMIO_STATUS then .ok s.status
      else if off = VIRTIO_MMIO_INTERRUPT_STATUS then
        .ok (s.interrupt_state ||| VIRTIO_MMIO_INT_VRING)
      else if off = VIRTIO_MMIO_QUEUE_NUM_MAX then .ok vq.size_max
      else if off = VIRTIO_MMIO_DEVICE_FEATURES then
        if 1 < s.device_features_sel then
          .error (.InvalidFeatureSel s.device_features_sel)
        else
          .ok (((g.device_features ||| 2 ^ VIRTIO_F_VERSION_1 |||
                 2 ^ VIRTIO_F_IOMMU_PLATFORM) >>>
                (32 * s.device_features_sel)) % 2 ^ 32)
      else if off = VIRTIO_MMIO_QUEUE_READY then .ok vq.ready
      else if off = VIRTIO_MMIO_QUEUE_DESC_LOW then .ok vq.desc_lo
      else if off = VIRTIO_MMIO_QUEUE_DESC_HIGH then .ok vq.desc_hi
      else if off = VIRTIO_MMIO_QUEUE_USED_LOW then .ok vq.used_lo
      else if off = VIRTIO_MMIO_QUEUE_USED_HIGH then .ok vq.used_hi
      else if off = VIRTIO_MMIO_QUEUE_AVAIL_LOW then .ok vq.avail_lo
      else if off = VIRTIO_MMIO_QUEUE_AVAIL_HIGH then .ok vq.avail_hi
      else if off = VIRTIO_MMIO_CONFIG_GENERATION then .ok 0
      else .error (.InvalidMmioAddr "read" offset)

/-! ## Writes (BaoMmio::io_write and its helpers) -/

/-- Outcome of one successful (non-panicking) write or dispatch step: the
updated engine state, the backend calls it made, and the `Result` of the
handler (`none` is `Ok(())`).  The Rust handlers mutate `&mut self` before
returning an error, so the state on the error path is the mutated one. -/
structure WriteOut where
  state : BaoMmio
  calls : List BackendCall
  ret : Option Error
deriving Repr, DecidableEq

/-- Replace the selected virtqueue record (the effect of a store through
`&mut self.vq[self.queue_sel as usize]`). -/
def BaoMmio.setVq (s : BaoMmio) (q : VirtQueue) : BaoMmio :=
  { s with vq := s.vq.set s.queue_sel q }

/-- `BaoMmio::init_vq`: assemble the ring addresses of the selected queue,
build a `Queue` of its configured size (`vq.size as u16`), mark the queue
ready and append `(queue_sel, queue, kick clone)` to the pending list.
`none` is the panic of the `.unwrap()` on `Queue::new`. -/
def BaoMmio.init_vq (s : BaoMmio) (vq : VirtQueue) : Option BaoMmio :=
  let desc := vq.desc_hi * 2 ^ 32 + vq.desc_lo
  let avail := vq.avail_hi * 2 ^ 32 + vq.avail_lo
  let used := vq.used_hi * 2 ^ 32 + vq.used_lo
  match VQueue.new (vq.size % 2 ^ 16) with
  | none => none
  | some q =>
    let q :=
      { q with
        desc_table := desc
        avail_ring := avail
        used_ring := used
        next_avail := 0 }
    some { s.setVq { vq with ready := 1 } with
           queues := s.queues ++ [(s.queue_sel, q, vq.kick)] }

/-- `BaoMmio::activate_device`: drain the pending list into the `activate`
call on the backend.  The guest-memory handle and the interrupt notifier the
source also passes are opaque to the claims and are omitted. -/
def BaoMmio.activate_device (s : BaoMmio) : BaoMmio × BackendCall :=
  ({ s with queues := [] }, .activate s.queues)

/-- `BaoMmio::destroy_vq`: drain the pending list. -/
def BaoMmio.destroy_vq (s : BaoMmio) : BaoMmio :=
  { s with queues := [] }

/-- `BaoMmio::io_write`.  `none` is a panic: the source takes
`&mut self.vq[self.queue_sel as usize]` before decoding the offset, so an
out-of-range `queue_sel` panics for every offset; the `DRIVER_FEATURES` arm
additionally panics on the u64 shift overflow when
`32 * driver_features_sel ≥ 64` (Rust arithmetic-overflow check).  The Rust
`match` on `offset as u32` is rendered as a chain of equality tests, and
`value` is the raw u64 `req.value` (truncated to u32 where the source
casts). -/
def BaoMmio.io_write (s : BaoMmio) (offset value : Nat) : Option WriteOut :=
  match s.vq[s.queue_sel]? with
  | none => none
  | some vq =>
    let off := offset % 2 ^ 32
    let v32 := value % 2 ^ 32
    if off = VIRTIO_MMIO_DEVICE_FEATURES_SEL then
      some ⟨{ s with device_features_sel := v32 }, [], none⟩
    else if off = VIRTIO_MMIO_DRIVER_FEATURES_SEL then
      some ⟨{ s with driver_features_sel := v32 }, [], none⟩
    else if off = VIRTIO_MMIO_QUEUE_SEL then
      some ⟨{ s with queue_sel := v32 }, [], none⟩
    else if off = VIRTIO_MMIO_STATUS then
      some ⟨{ s with status := v32 }, [], none⟩
    else if off = VIRTIO_MMIO_QUEUE_NUM then
      some ⟨s.setVq { vq with size := v32 }, [], none⟩
    else if off = VIRTIO_MMIO_QUEUE_DESC_LOW then
      some ⟨s.setVq { vq with desc_lo := v32 }, [], none⟩
    else if off = VIRTIO_MMIO_QUEUE_DESC_HIGH then
      some ⟨s.setVq { vq with desc_hi := v32 }, [], none⟩
    else if off = VIRTIO_MMIO_QUEUE_USED_LOW then
      some ⟨s.setVq { vq with used_lo := v32 }, [], none⟩
    else if off = VIRTIO_MMIO_QUEUE_USED_HIGH then
      some ⟨s.setVq { vq with used_hi := v32 }, [], none⟩
    else if off = VIRTIO_MMIO_QUEUE_AVAIL_LOW then
      some ⟨s.setVq { vq with avail_lo := v32 }, [], none⟩
    else if off = VIRTIO_MMIO_QUEUE_AVAIL_HIGH then
      some ⟨s.setVq { vq with avail_hi := v32 }, [], none⟩
    else if off = VIRTIO_MMIO_INTERRUPT_ACK then
      some ⟨{ s with interrupt_state := s.interrupt_state &&& ((2 ^ 32 - 1) ^^^ v32) },
            [], none⟩
    else if off = VIRTIO_MMIO_DRIVER_FEATURES then
      if 64 ≤ 32 * s.driver_features_sel then none
      else
        let df := s.driver_features ||| (v32 <<< (32 * s.driver_features_sel))
        let s := { s with driver_features := df }
        if s.driver_features_sel = 1 then
          if df &&& 2 ^ VIRTIO_F_VERSION_1 = 0 then
            some ⟨s, [], some .MmioLegacyNotSupported⟩
          else if df &&& 2 ^ VIRTIO_F_IOMMU_PLATFORM = 0 then
            some ⟨s, [], some .IommuPlatformNotSupported⟩
          else
            some ⟨s, [], none⟩
        else
          some ⟨s, [.negotiateFeatures df 0], none⟩
    else if off = VIRTIO_MMIO_QUEUE_READY then
      if value = 1 then
        match s.init_vq vq with
        | none => none
        | some s =>
          if s.queues.length = s.queues_count then
            let (s, call) := s.activate_device
            some ⟨s, [call], none⟩
          else
            some ⟨s, [], none⟩
      else
        some ⟨s.destroy_vq, [], none⟩
    else if off = VIRTIO_MMIO_QUEUE_NOTIFY then
      some ⟨s, [], none⟩
    else
      some ⟨s, [], some (.InvalidMmioAddr "write" offset)⟩

/-! ## Dispatch (BaoMmio::io_event) and traces -/

/-- Outcome of one non-panicking `io_event` step: the updated state, the
backend calls, the request value after the step (writes leave it unchanged,
successful reads overwrite it), and the returned `Result`. -/
structure EventOut where
  state : BaoMmio
  calls : List BackendCall
  value : Nat
  ret : Option Error
deriving Repr, DecidableEq

/-- `BaoMmio::config_read`: delegate to the backend, truncated to the access
width, and store the bytes into `req.value`. -/
def BaoMmio.config_read (g : Generic) (offset width : Nat) : Nat :=
  g.read_config offset width % 2 ^ (8 * width)

/-- `BaoMmio::io_event`: configuration-space accesses (offsets at or above
`VHOST_USER_CONFIG_OFFSET`) delegate to the backend after rebasing the
offset; everything else decodes as a register access.  A request whose `op`
is neither `BAO_IO_READ` nor `BAO_IO_WRITE` fails `InvalidMmioDir(op as u8)`.
`none` is a panic inside `io_read`/`io_write`. -/
def BaoMmio.io_event (s : BaoMmio) (g : Generic) (req : BaoIoRequest) :
    Option EventOut :=
  if VHOST_USER_CONFIG_OFFSET ≤ req.reg_off then
    let offset := req.reg_off - VHOST_USER_CONFIG_OFFSET
    if req.op = BAO_IO_READ then
      some ⟨s, [], BaoMmio.config_read g offset req.access_width, none⟩
    else if req.op = BAO_IO_WRITE then
      some ⟨s, [], req.value, none⟩
    else
      some ⟨s, [], req.value, some (.InvalidMmioDir (req.op % 2 ^ 8))⟩
  else
    if req.op = BAO_IO_READ then
      match s.io_read g req.reg_off with
      | none => none
      | some (.ok v) => some ⟨s, [], v, none⟩
      | some (.error e) => some ⟨s, [], req.value, some e⟩
    else if req.op = BAO_IO_WRITE then
      match s.io_write req.reg_off req.value with
      | none => none
      | some out => some ⟨out.state, out.calls, req.value, out.ret⟩
    else
      some ⟨s, [], req.value, some (.InvalidMmioDir (req.op % 2 ^ 8))⟩

/-- Modelled from the spec: the per-Guest dispatch loop lives in
src/guest.rs, which is not in the source tree.  Per sections 5 and 7 of the
spec, the loop completes each request back to the kernel (reporting errors
through the `ret` field) and continues with the next one; only a panic kills
it.  `runTrace` folds `io_event` over a request list, collecting the backend
calls and the per-request `Result`s. -/
def runTrace (s : BaoMmio) (g : Generic) :
    List BaoIoRequest → Option (BaoMmio × List BackendCall × List (Option Error))
  | [] => some (s, [], [])
  | req :: rest =>
    match s.io_event g req with
    | none => none
    | some out =>
      match runTrace out.state g rest with
      | none => none
      | some (s', calls, rets) => some (s', out.calls ++ calls, out.ret :: rets)

/-- Shorthand for a write request at a register offset. -/
def wreq (offset value : Nat) : BaoIoRequest :=
  { reg_off := offset, op := BAO_IO_WRITE, value := value, access_width := 4 }

/-- Shorthand for a read request at a register offset. -/
def rreq (offset : Nat) : BaoIoRequest :=
  { reg_off := offset, op := BAO_IO_READ, value := 0, access_width := 4 }

/-! ## Device-class registry (device.rs) -/

/-- `struct DeviceInfo` of device.rs. -/
structure DeviceInfo where
  name : String
  compatible : String
  index : Nat
deriving Repr, DecidableEq

/-- `DeviceInfo::new`. -/
def DeviceInfo.init (name : String) (id : Nat) : DeviceInfo :=
  { name := name, compatible := "virtio,device" ++ toString id, index := 0 }

/-- The process-wide `DEVICES` map.  The `HashMap<String, DeviceInfo>` keyed
by the compatible string is modelled as a list of `DeviceInfo` looked up by
the `compatible` field; `SUPPORTED_DEVICES` entries have distinct ids, so
the keys are distinct and the first match is the entry. -/
abbrev Registry := List DeviceInfo

/-- `DEVICES` lookup by compatible string (`devices.get_mut(&compatible)`). -/
def Registry.find (reg : Registry) (compatible : String) : Option DeviceInfo :=
  reg.find? fun d => d.compatible == compatible

/-- Store an updated entry back under its compatible string (the effect of
mutating through the `get_mut` reference). -/
def Registry.store (reg : Registry) (d : DeviceInfo) : Registry :=
  reg.map fun e => if e.compatible == d.compatible then d else e

/-- The registry initialiser of device.rs: one fresh `DeviceInfo` per
`SUPPORTED_DEVICES` entry `(name, id)`, each with index 0. -/
def initRegistry (supported : List (String × Nat)) : Registry :=
  supported.map fun p => DeviceInfo.init p.1 p.2

/-- The registry part of `BaoDevice::new` (lines 149-171 of device.rs): look
the class up by compatible string, fail `BaoDevNotSupported` if absent, and
otherwise build the socket path `socket_path + name + ".sock" + index()`,
where `DeviceInfo::index` post-increments the per-class index and returns
the old value.  On success returns the updated registry and the socket
path.  The rest of the constructor (vhost-user connect, MMIO engine,
interrupt) happens after this and does not touch the registry. -/
def deviceLookup (reg : Registry) (dev_id : Nat) (socket_path : String) :
    Except Error (Registry × String) :=
  let compatible := "virtio,device" ++ toString dev_id
  match reg.find compatible with
  | none => .error (.BaoDevNotSupported compatible)
  | some dev =>
    let sock := socket_path ++ dev.name ++ ".sock" ++ toString dev.index
    .ok (reg.store { dev with index := dev.index + 1 }, sock)

/-! ## Guests and the frontend (frontend.rs; guest.rs modelled from the spec) -/

/-- Modelled from the spec: `BaoGuest` lives in src/guest.rs, which is not in
the source tree.  Section 3 of the spec gives it a 16-bit id and a set of
Devices keyed by the device MMIO base address; each device holds the socket
path it connected over (section 4.4).  The DeviceModel and the io-events
flag are omitted: no claim depends on them. -/
structure BaoGuest where
  id : Nat
  devices : List (Nat × String)
deriving Repr, DecidableEq

/-- Modelled from the spec: `BaoGuest::new` (section 4.5) on its success
path; the failure mode (`OpenFdFailed` from the DeviceModel) happens before
the guest is pushed into the frontend and leaves every map unchanged. -/
def BaoGuest.init (guest_id : Nat) : BaoGuest :=
  { id := guest_id, devices := [] }

/-- Modelled from the spec: `BaoGuest::add_device` (section 4.5) constructs
a Device and inserts it.  Device construction is `BaoDevice::new` of
device.rs, whose registry interaction is `deviceLookup`; on its failure
nothing is inserted and the error propagates. -/
def BaoGuest.add_device (gst : BaoGuest) (reg : Registry) (dev_id dev_addr : Nat)
    (socket_path : String) : Except Error (BaoGuest × Registry) :=
  match deviceLookup reg dev_id socket_path with
  | .error e => .error e
  | .ok (reg', sock) =>
    .ok ({ gst with devices := gst.devices ++ [(dev_addr, sock)] }, reg')

/-- `FrontendGuests::find` of frontend.rs. -/
def findGuestIdx (fg : List BaoGuest) (guest_id : Nat) : Option Nat :=
  fg.findIdx? fun gst => gst.id == guest_id

/-- `FrontendGuests::add_device` of frontend.rs: find the guest, creating
and pushing a fresh one first when absent, then delegate the device
addition to it.  The push happens before the delegation, and Rust keeps the
mutated `self` on the error path, so a guest created on demand survives a
failed device addition.  Returns the new guest list, the new registry, and
either the socket path of the created device or the error. -/
def FrontendGuests.add_device (fg : List BaoGuest) (reg : Registry)
    (guest_id dev_id dev_addr : Nat) (socket_path : String) :
    List BaoGuest × Registry × Except Error String :=
  match findGuestIdx fg guest_id with
  | some i =>
    match (fg.getD i (BaoGuest.init guest_id)).add_device reg dev_id dev_addr
        socket_path with
    | .error e => (fg, reg, .error e)
    | .ok (gst', reg') => (fg.set i gst', reg', .ok (gst'.devices.getLast?.map
        Prod.snd |>.getD ""))
  | none =>
    let gst := BaoGuest.init guest_id
    match gst.add_device reg dev_id dev_addr socket_path with
    | .error e => (fg ++ [gst], reg, .error e)
    | .ok (gst', reg') => (fg ++ [gst'], reg', .ok (gst'.devices.getLast?.map
        Prod.snd |>.getD ""))

/-! ## Concrete fixtures used by the claim theorems -/

/-- A concrete backend client: device type 1, no device features, zero
configuration space. -/
def gdev0 : Generic := ⟨1, 0, fun _ _ => 0⟩

/-- Number of `activate` calls in a backend-call list. -/
def countActivate (calls : List BackendCall) : Nat :=
  calls.countP fun c => match c with | .activate _ => true | _ => false

/-- A concrete supported-device table in the shape of `SUPPORTED_DEVICES`
(names and ids of three virtio classes; id 99 is deliberately absent). -/
def sampleSupported : List (String × Nat) := [("net", 1), ("block", 2), ("rng", 4)]

/-- C1, fixture: the fresh two-queue engine with the size of queue 0
configured to 256. -/
def c1s : BaoMmio :=
  (BaoMmio.new [256, 256] 0).1.setVq ⟨0, 256, 256, 77, 0, 0, 0, 0, 0, 0⟩

/-- C1, fixture: the selected virtqueue record of `c1s`. -/
def c1vq : VirtQueue := ⟨0, 256, 256, 77, 0, 0, 0, 0, 0, 0⟩

/-- C1, fixture: `c1s` after `init_vq`, with queue 0 pending. -/
def c1next : BaoMmio :=
  { c1s.setVq { c1vq with ready := 1 } with
    queues := c1s.queues ++ [(c1s.queue_sel, ⟨256, 77, 0, 0, 0⟩, c1vq.kick)] }

/-- The register offsets the io_read decoder of mmio.rs matches. -/
def mmioReadOffsets : List Nat :=
  [VIRTIO_MMIO_MAGIC_VALUE, VIRTIO_MMIO_VERSION, VIRTIO_MMIO_DEVICE_ID,
   VIRTIO_MMIO_VENDOR_ID, VIRTIO_MMIO_STATUS, VIRTIO_MMIO_INTERRUPT_STATUS,
   VIRTIO_MMIO_QUEUE_NUM_MAX, VIRTIO_MMIO_DEVICE_FEATURES,
   VIRTIO_MMIO_QUEUE_READY, VIRTIO_MMIO_QUEUE_DESC_LOW, VIRTIO_MMIO_QUEUE_DESC_HIGH,
   VIRTIO_MMIO_QUEUE_USED_LOW, VIRTIO_MMIO_QUEUE_USED_HIGH,
   VIRTIO_MMIO_QUEUE_AVAIL_LOW, VIRTIO_MMIO_QUEUE_AVAIL_HIGH,
   VIRTIO_MMIO_CONFIG_GENERATION]

/-- The register offsets the io_write decoder of mmio.rs matches. -/
def mmioWriteOffsets : List Nat :=
  [VIRTIO_MMIO_DEVICE_FEATURES_SEL, VIRTIO_MMIO_DRIVER_FEATURES_SEL,
   VIRTIO_MMIO_QUEUE_SEL, VIRTIO_MMIO_STATUS, VIRTIO_MMIO_QUEUE_NUM,
   VIRTIO_MMIO_QUEUE_DESC_LOW, VIRTIO_MMIO_QUEUE_DESC_HIGH,
   VIRTIO_MMIO_QUEUE_USED_LOW, VIRTIO_MMIO_QUEUE_USED_HIGH,
   VIRTIO_MMIO_QUEUE_AVAIL_LOW, VIRTIO_MMIO_QUEUE_AVAIL_HIGH,
   VIRTIO_MMIO_INTERRUPT_ACK, VIRTIO_MMIO_DRIVER_FEATURES,
   VIRTIO_MMIO_QUEUE_READY, VIRTIO_MMIO_QUEUE_NOTIFY]

/-- The registry interactions of n successive `BaoDevice::new` calls for
the same device id: the socket paths handed to the n devices of one class
created in order (any guests). -/
def lookupRun (reg : Registry) (dev_id : Nat) (socket_path : String) :
    Nat → Option (List String × Registry)
  | 0 => some ([], reg)
  | n + 1 =>
    match deviceLookup reg dev_id socket_path with
    | .error _ => none
    | .ok (reg', sock) =>
      (lookupRun reg' dev_id socket_path n).map fun p => (sock :: p.1, p.2)

/-! ## Claim theorems -/

/-- C1, counterexample.  Backend with two queues (`queues_count = 2`).  The
guest sets the size of queue 0 and then writes `QUEUE_READY = 1` four times
without ever moving `queue_sel` off queue 0.  The backend receives
`activate` twice in the lifetime of the Device - not exactly once - and
queue 1 never transitions to ready (its `ready` register stays 0), so
activation also did not wait for `queues_count` distinct queues: the
pending list merely reached length 2 with two copies of queue 0. -/
theorem C1_counterexample :
    ((runTrace (BaoMmio.new [256, 256] 0xa003e00).1 gdev0
        [wreq VIRTIO_MMIO_QUEUE_NUM 256, wreq VIRTIO_MMIO_QUEUE_READY 1,
         wreq VIRTIO_MMIO_QUEUE_READY 1, wreq VIRTIO_MMIO_QUEUE_READY 1,
         wreq VIRTIO_MMIO_QUEUE_READY 1]).map
      fun out => (countActivate out.2.1, out.1.vq.map (·.ready))) =
        some (2, [1, 0]) ∧ (2 : Nat) ≠ 1 := by
  exact ⟨by decide, by decide⟩

/-- C2, counterexample.  One-queue device.  The guest writes
`driver_features_sel = 1` and then `DRIVER_FEATURES = 0`: the upper word
lacks both VERSION_1 and IOMMU_PLATFORM and the write returns
`MmioLegacyNotSupported`.  The subsequent writes `driver_features_sel = 0`
and `DRIVER_FEATURES = 5` nevertheless make the Device call
`negotiate_features(5, empty)` on the backend, so the Device does not stay
away from `negotiate_features` for every sequence of subsequent MMIO
writes. -/
theorem C2_counterexample :
    ((runTrace (BaoMmio.new [256] 0).1 gdev0
        [wreq VIRTIO_MMIO_DRIVER_FEATURES_SEL 1, wreq VIRTIO_MMIO_DRIVER_FEATURES 0,
         wreq VIRTIO_MMIO_DRIVER_FEATURES_SEL 0, wreq VIRTIO_MMIO_DRIVER_FEATURES 5]).map
      fun out => (out.2.1, out.2.2)) =
        some ([.negotiateFeatures 5 0],
              [none, some .MmioLegacyNotSupported, none, none]) ∧
    [BackendCall.negotiateFeatures 5 0] ≠ ([] : List BackendCall) := by
  exact ⟨by decide, by decide⟩

/-- C9.  The virtqueue initialiser of `BaoMmio::new` sets `desc_lo := 77`
(a leftover debugging value the spec flags as such), so immediately after
construction a read of QUEUE_DESC_LOW for the selected queue returns 77,
not 0 as the specified initial register file requires. -/
theorem C9_theorem :
    (BaoMmio.new [256] 0xa003e00).1.io_read gdev0 VIRTIO_MMIO_QUEUE_DESC_LOW =
      some (.ok 77) ∧ (77 : Nat) ≠ 0 := by
  exact ⟨rfl, by decide⟩

/-- C6, counterexample.  A frontend with no guests receives
`add_device(guest_id = 0, dev_id = 99, ...)`.  Id 99 has no registry entry,
so the call fails `BaoDevNotSupported("virtio,device99")` and the registry
is untouched - but `FrontendGuests::add_device` pushes the freshly created
Guest before delegating the device addition, so the Guest map now holds an
empty Guest 0: it is not unchanged by the failed call. -/
theorem C6_counterexample :
    FrontendGuests.add_device [] (initRegistry sampleSupported) 0 99 0xa003e00
        "/root/" =
      ([BaoGuest.init 0], initRegistry sampleSupported,
        .error (.BaoDevNotSupported "virtio,device99")) ∧
    [BaoGuest.init 0] ≠ ([] : List BaoGuest) := by
  exact ⟨rfl, by decide⟩

/-- C6, amended.  An `add_device` call whose device id has no registry entry
fails with `BaoDevNotSupported` carrying the compatible string, and the
registry - including every per-class index - is unchanged.  The Guest map is
unchanged when a Guest with that guest id already exists; when the Guest was
created on demand by this very call, it stays in the map (holding no
devices) despite the failure. -/
theorem C6_theorem (fg : List BaoGuest) (reg : Registry)
    (guest_id dev_id dev_addr : Nat) (sp : String)
    (habs : reg.find ("virtio,device" ++ toString dev_id) = none) :
    FrontendGuests.add_device fg reg guest_id dev_id dev_addr sp =
      ((if (findGuestIdx fg guest_id).isSome then fg
        else fg ++ [BaoGuest.init guest_id]),
       reg, .error (.BaoDevNotSupported ("virtio,device" ++ toString dev_id))) := by
  unfold FrontendGuests.add_device BaoGuest.add_device deviceLookup
  cases h : findGuestIdx fg guest_id <;> simp [h, habs]

/-- C6, witness for the amended theorem: id 99 is absent from the sample
registry, and the failed call on a guestless frontend leaves the registry
unchanged while the on-demand Guest 0 stays behind. -/
theorem C6_witness :
    (initRegistry sampleSupported).find ("virtio,device" ++ toString 99) = none ∧
    FrontendGuests.add_device [] (initRegistry sampleSupported) 7 99 0xa003e00
        "/tmp/" =
      ((if (findGuestIdx [] 7).isSome then [] else [] ++ [BaoGuest.init 7]),
       initRegistry sampleSupported,
       .error (.BaoDevNotSupported ("virtio,device" ++ toString 99))) :=
  ⟨by decide, C6_theorem [] (initRegistry sampleSupported) 7 99 0xa003e00 "/tmp/"
    (by decide)⟩

/-- C3.  First conjunct: for the literal write sequence
`driver_features_sel = 1`, `DRIVER_FEATURES = 0x3`, `driver_features_sel = 0`,
`DRIVER_FEATURES = 0x0`, the backend receives exactly one call
`negotiate_features(0x0000_0003_0000_0000, empty)` and every write
succeeds.  Second conjunct: each `DRIVER_FEATURES` write ORs the 32-bit
value into the selected word of the 64-bit `driver_features`, and invokes
`negotiate_features(driver_features, empty)` exactly when it arrives with
selector not equal to 1. -/
theorem C3_theorem :
    ((runTrace (BaoMmio.new [256] 0).1 gdev0
        [wreq VIRTIO_MMIO_DRIVER_FEATURES_SEL 1, wreq VIRTIO_MMIO_DRIVER_FEATURES 3,
         wreq VIRTIO_MMIO_DRIVER_FEATURES_SEL 0, wreq VIRTIO_MMIO_DRIVER_FEATURES 0]).map
      fun out => (out.2.1, out.2.2)) =
        some ([.negotiateFeatures 0x0000000300000000 0], [none, none, none, none]) ∧
    ∀ (s : BaoMmio) (vq : VirtQueue) (v : Nat),
      s.vq[s.queue_sel]? = some vq → s.driver_features_sel ≤ 1 →
      ∃ out, s.io_write VIRTIO_MMIO_DRIVER_FEATURES v = some out ∧
        out.state.driver_features =
          s.driver_features ||| ((v % 2 ^ 32) <<< (32 * s.driver_features_sel)) ∧
        (s.driver_features_sel ≠ 1 →
          out.calls = [.negotiateFeatures out.state.driver_features 0] ∧
          out.ret = none) ∧
        (s.driver_features_sel = 1 → out.calls = []) := by
  constructor
  · decide
  · intro s vq v hvq hsel
    rcases Nat.le_one_iff_eq_zero_or_eq_one.mp hsel with h0 | h1
    · simp only [BaoMmio.io_write, hvq, h0]
      norm_num [VIRTIO_MMIO_DRIVER_FEATURES, VIRTIO_MMIO_DEVICE_FEATURES_SEL,
        VIRTIO_MMIO_DRIVER_FEATURES_SEL, VIRTIO_MMIO_QUEUE_SEL,
        VIRTIO_MMIO_STATUS, VIRTIO_MMIO_QUEUE_NUM, VIRTIO_MMIO_QUEUE_DESC_LOW,
        VIRTIO_MMIO_QUEUE_DESC_HIGH, VIRTIO_MMIO_QUEUE_USED_LOW,
        VIRTIO_MMIO_QUEUE_USED_HIGH, VIRTIO_MMIO_QUEUE_AVAIL_LOW,
        VIRTIO_MMIO_QUEUE_AVAIL_HIGH, VIRTIO_MMIO_INTERRUPT_ACK]
    · simp only [BaoMmio.io_write, hvq, h1]
      norm_num [VIRTIO_MMIO_DRIVER_FEATURES, VIRTIO_MMIO_DEVICE_FEATURES_SEL,
        VIRTIO_MMIO_DRIVER_FEATURES_SEL, VIRTIO_MMIO_QUEUE_SEL,
        VIRTIO_MMIO_STATUS, VIRTIO_MMIO_QUEUE_NUM, VIRTIO_MMIO_QUEUE_DESC_LOW,
        VIRTIO_MMIO_QUEUE_DESC_HIGH, VIRTIO_MMIO_QUEUE_USED_LOW,
        VIRTIO_MMIO_QUEUE_USED_HIGH, VIRTIO_MMIO_QUEUE_AVAIL_LOW,
        VIRTIO_MMIO_QUEUE_AVAIL_HIGH, VIRTIO_MMIO_INTERRUPT_ACK]
      split_ifs <;> exact ⟨_, rfl, rfl, rfl⟩

/-- C3, witness for the second conjunct: on the fresh one-queue engine
(selector 0) a `DRIVER_FEATURES` write of 5 is ORed into the lower word and
immediately negotiated. -/
theorem C3_witness :
    (BaoMmio.new [256] 0).1.vq[(BaoMmio.new [256] 0).1.queue_sel]? =
      some ((BaoMmio.new [256] 0).1.vq.getD 0 ⟨0,0,0,0,0,0,0,0,0,0⟩) ∧
    (BaoMmio.new [256] 0).1.driver_features_sel ≤ 1 ∧
    ∃ out, (BaoMmio.new [256] 0).1.io_write VIRTIO_MMIO_DRIVER_FEATURES 5 =
        some out ∧
      out.state.driver_features =
        (BaoMmio.new [256] 0).1.driver_features |||
          ((5 % 2 ^ 32) <<< (32 * (BaoMmio.new [256] 0).1.driver_features_sel)) ∧
      ((BaoMmio.new [256] 0).1.driver_features_sel ≠ 1 →
        out.calls = [.negotiateFeatures out.state.driver_features 0] ∧
        out.ret = none) ∧
      ((BaoMmio.new [256] 0).1.driver_features_sel = 1 → out.calls = []) :=
  ⟨by decide, by decide,
    C3_theorem.2 (BaoMmio.new [256] 0).1
      ((BaoMmio.new [256] 0).1.vq.getD 0 ⟨0,0,0,0,0,0,0,0,0,0⟩) 5
      (by decide) (by decide)⟩

/-- C4.  A read of DEVICE_FEATURES with `device_features_sel ≤ 1` returns
the 32-bit window at bits `32 * sel .. 32 * sel + 31` of the backend device
features with the VERSION_1 and IOMMU_PLATFORM bits added (the bit-level
window property is stated explicitly); with any selector greater than 1 the
read fails `InvalidFeatureSel(sel)`.  The hypothesis `queue_sel <
vq.length` excludes the unrelated out-of-bounds panic of the eager
virtqueue indexing, which is the subject of C10. -/
theorem C4_theorem (s : BaoMmio) (g : Generic) (hq : s.queue_sel < s.vq.length) :
    (s.device_features_sel ≤ 1 →
      s.io_read g VIRTIO_MMIO_DEVICE_FEATURES =
        some (.ok (((g.device_features ||| 2 ^ VIRTIO_F_VERSION_1 |||
            2 ^ VIRTIO_F_IOMMU_PLATFORM) >>> (32 * s.device_features_sel)) % 2 ^ 32)) ∧
      ∀ i < 32,
        Nat.testBit (((g.device_features ||| 2 ^ VIRTIO_F_VERSION_1 |||
            2 ^ VIRTIO_F_IOMMU_PLATFORM) >>> (32 * s.device_features_sel)) % 2 ^ 32) i =
        Nat.testBit (g.device_features ||| 2 ^ VIRTIO_F_VERSION_1 |||
            2 ^ VIRTIO_F_IOMMU_PLATFORM) (32 * s.device_features_sel + i)) ∧
    (1 < s.device_features_sel →
      s.io_read g VIRTIO_MMIO_DEVICE_FEATURES =
        some (.error (.InvalidFeatureSel s.device_features_sel))) := by
  have hvq : s.vq[s.queue_sel]? = some (s.vq.get ⟨s.queue_sel, hq⟩) :=
    List.getElem?_eq_getElem hq
  refine ⟨fun hsel => ⟨?_, fun i hi => ?_⟩, fun hsel => ?_⟩
  · simp only [BaoMmio.io_read, hvq]
    norm_num [VIRTIO_MMIO_DEVICE_FEATURES, VIRTIO_MMIO_MAGIC_VALUE,
      VIRTIO_MMIO_VERSION, VIRTIO_MMIO_DEVICE_ID, VIRTIO_MMIO_VENDOR_ID,
      VIRTIO_MMIO_STATUS, VIRTIO_MMIO_INTERRUPT_STATUS, VIRTIO_MMIO_QUEUE_NUM_MAX]
    exact fun h => absurd h (by omega)
  · rw [Nat.testBit_mod_two_pow, Nat.testBit_shiftRight]
    simp [hi]
  · simp only [BaoMmio.io_read, hvq]
    norm_num [VIRTIO_MMIO_DEVICE_FEATURES, VIRTIO_MMIO_MAGIC_VALUE,
      VIRTIO_MMIO_VERSION, VIRTIO_MMIO_DEVICE_ID, VIRTIO_MMIO_VENDOR_ID,
      VIRTIO_MMIO_STATUS, VIRTIO_MMIO_INTERRUPT_STATUS, VIRTIO_MMIO_QUEUE_NUM_MAX]
    exact fun h => absurd hsel (by omega)

/-- C4, witness: on the fresh one-queue engine (selector 0) and a backend
advertising feature bit 0, evaluating both branches of the theorem at
selector 0 and, after a selector write of 7, at selector 7. -/
theorem C4_witness :
    ((BaoMmio.new [256] 0).1.queue_sel < (BaoMmio.new [256] 0).1.vq.length) ∧
    ((BaoMmio.new [256] 0).1.device_features_sel ≤ 1 →
      (BaoMmio.new [256] 0).1.io_read gdev0 VIRTIO_MMIO_DEVICE_FEATURES =
        some (.ok (((gdev0.device_features ||| 2 ^ VIRTIO_F_VERSION_1 |||
            2 ^ VIRTIO_F_IOMMU_PLATFORM) >>>
            (32 * (BaoMmio.new [256] 0).1.device_features_sel)) % 2 ^ 32)) ∧
      ∀ i < 32,
        Nat.testBit (((gdev0.device_features ||| 2 ^ VIRTIO_F_VERSION_1 |||
            2 ^ VIRTIO_F_IOMMU_PLATFORM) >>>
            (32 * (BaoMmio.new [256] 0).1.device_features_sel)) % 2 ^ 32) i =
        Nat.testBit (gdev0.device_features ||| 2 ^ VIRTIO_F_VERSION_1 |||
            2 ^ VIRTIO_F_IOMMU_PLATFORM)
          (32 * (BaoMmio.new [256] 0).1.device_features_sel + i)) ∧
    (1 < (BaoMmio.new [256] 0).1.device_features_sel →
      (BaoMmio.new [256] 0).1.io_read gdev0 VIRTIO_MMIO_DEVICE_FEATURES =
        some (.error (.InvalidFeatureSel (BaoMmio.new [256] 0).1.device_features_sel))) :=
  ⟨by decide,
    (C4_theorem (BaoMmio.new [256] 0).1 gdev0 (by decide)).1,
    (C4_theorem (BaoMmio.new [256] 0).1 gdev0 (by decide)).2⟩

/-- C10.  First conjunct: any trapped READ or WRITE at an offset below the
configuration-space sentinel that arrives while `queue_sel` is at or beyond
the number of virtqueues panics (the handlers index `vq[queue_sel]` before
decoding the offset), instead of returning an MMIO error - for every such
offset, including MAGIC_VALUE.  Second conjunct: reachability - a QUEUE_SEL
write stores any 32-bit value unchecked. -/
theorem C10_theorem :
    (∀ (s : BaoMmio) (g : Generic) (req : BaoIoRequest),
      s.vq.length ≤ s.queue_sel → req.reg_off < VHOST_USER_CONFIG_OFFSET →
      req.op = BAO_IO_READ ∨ req.op = BAO_IO_WRITE →
      s.io_event g req = none) ∧
    (∀ (s : BaoMmio) (vq : VirtQueue) (v : Nat),
      s.vq[s.queue_sel]? = some vq →
      s.io_write VIRTIO_MMIO_QUEUE_SEL v =
        some ⟨{ s with queue_sel := v % 2 ^ 32 }, [], none⟩) := by
  constructor
  · intro s g req hle hoff hop
    have hnone : s.vq[s.queue_sel]? = none := List.getElem?_eq_none hle
    have hc : ¬ (VHOST_USER_CONFIG_OFFSET ≤ req.reg_off) := not_le.mpr hoff
    rcases hop with h | h <;>
      simp [BaoMmio.io_event, hc, h, BaoMmio.io_read, BaoMmio.io_write, hnone,
        BAO_IO_READ, BAO_IO_WRITE]
  · intro s vq v hvq
    simp only [BaoMmio.io_write, hvq]
    norm_num [VIRTIO_MMIO_QUEUE_SEL, VIRTIO_MMIO_DEVICE_FEATURES_SEL,
      VIRTIO_MMIO_DRIVER_FEATURES_SEL]

/-- C10, witness: from the fresh one-queue engine a QUEUE_SEL write stores 5
unchecked, and in the resulting state (queue_sel = 5 with one virtqueue) a
MAGIC_VALUE read panics. -/
theorem C10_witness :
    ({ (BaoMmio.new [256] 0).1 with queue_sel := 5 }.vq.length ≤ 5 ∧
      (0 : Nat) < VHOST_USER_CONFIG_OFFSET ∧
      { (BaoMmio.new [256] 0).1 with queue_sel := 5 }.io_event gdev0
        (rreq VIRTIO_MMIO_MAGIC_VALUE) = none) ∧
    ((BaoMmio.new [256] 0).1.vq[(BaoMmio.new [256] 0).1.queue_sel]? =
        some ((BaoMmio.new [256] 0).1.vq.getD 0 ⟨0,0,0,0,0,0,0,0,0,0⟩) ∧
      (BaoMmio.new [256] 0).1.io_write VIRTIO_MMIO_QUEUE_SEL 5 =
        some ⟨{ (BaoMmio.new [256] 0).1 with queue_sel := 5 % 2 ^ 32 }, [], none⟩) :=
  ⟨⟨by decide, by decide,
    C10_theorem.1 { (BaoMmio.new [256] 0).1 with queue_sel := 5 } gdev0
      (rreq VIRTIO_MMIO_MAGIC_VALUE) (by decide) (by decide) (Or.inl rfl)⟩,
   ⟨by decide,
    C10_theorem.2 (BaoMmio.new [256] 0).1
      ((BaoMmio.new [256] 0).1.vq.getD 0 ⟨0,0,0,0,0,0,0,0,0,0⟩) 5 (by decide)⟩⟩

/-- C7.  For a trapped access handled by `io_event`: an op that is neither
READ nor WRITE yields `InvalidMmioDir(op as u8)`; a READ below the
configuration-space sentinel at an offset matching no defined register
yields `InvalidMmioAddr("read", offset)`; a WRITE at such an offset yields
`InvalidMmioAddr("write", offset)`.  In each case `io_event` returns the
error (for the dispatcher to report as a non-zero `ret`) with the engine
state unchanged and no backend call, rather than panicking or terminating.
The `queue_sel < vq.length` hypothesis excludes the out-of-bounds panic
that is the subject of C10. -/
theorem C7_theorem (s : BaoMmio) (g : Generic) (req : BaoIoRequest)
    (hq : s.queue_sel < s.vq.length)
    (hoff : req.reg_off < VHOST_USER_CONFIG_OFFSET) :
    (req.op ≠ BAO_IO_READ → req.op ≠ BAO_IO_WRITE →
      s.io_event g req =
        some ⟨s, [], req.value, some (.InvalidMmioDir (req.op % 2 ^ 8))⟩) ∧
    (req.op = BAO_IO_READ → req.reg_off ∉ mmioReadOffsets →
      s.io_event g req =
        some ⟨s, [], req.value, some (.InvalidMmioAddr "read" req.reg_off)⟩) ∧
    (req.op = BAO_IO_WRITE → req.reg_off ∉ mmioWriteOffsets →
      s.io_event g req =
        some ⟨s, [], req.value, some (.InvalidMmioAddr "write" req.reg_off)⟩) := by
  have h32 : req.reg_off < 2 ^ 32 := by
    norm_num [VHOST_USER_CONFIG_OFFSET] at hoff ⊢; omega
  have hmod : req.reg_off % 2 ^ 32 = req.reg_off := Nat.mod_eq_of_lt h32
  have hc : ¬ (VHOST_USER_CONFIG_OFFSET ≤ req.reg_off) := not_le.mpr hoff
  have hvq : s.vq[s.queue_sel]? = some (s.vq.get ⟨s.queue_sel, hq⟩) :=
    List.getElem?_eq_getElem hq
  refine ⟨fun h1 h2 => ?_, fun h1 h2 => ?_, fun h1 h2 => ?_⟩
  · simp [BaoMmio.io_event, hc, h1, h2]
  · simp [mmioReadOffsets, VIRTIO_MMIO_MAGIC_VALUE, VIRTIO_MMIO_VERSION,
      VIRTIO_MMIO_DEVICE_ID, VIRTIO_MMIO_VENDOR_ID, VIRTIO_MMIO_STATUS,
      VIRTIO_MMIO_INTERRUPT_STATUS, VIRTIO_MMIO_QUEUE_NUM_MAX,
      VIRTIO_MMIO_DEVICE_FEATURES, VIRTIO_MMIO_QUEUE_READY,
      VIRTIO_MMIO_QUEUE_DESC_LOW, VIRTIO_MMIO_QUEUE_DESC_HIGH,
      VIRTIO_MMIO_QUEUE_USED_LOW, VIRTIO_MMIO_QUEUE_USED_HIGH,
      VIRTIO_MMIO_QUEUE_AVAIL_LOW, VIRTIO_MMIO_QUEUE_AVAIL_HIGH,
      VIRTIO_MMIO_CONFIG_GENERATION] at h2
    simp only [BaoMmio.io_event, BaoMmio.io_read, hvq, hmod, hc, if_neg hc, h1]
    norm_num [BAO_IO_READ, VIRTIO_MMIO_MAGIC_VALUE, VIRTIO_MMIO_VERSION,
      VIRTIO_MMIO_DEVICE_ID, VIRTIO_MMIO_VENDOR_ID, VIRTIO_MMIO_STATUS,
      VIRTIO_MMIO_INTERRUPT_STATUS, VIRTIO_MMIO_QUEUE_NUM_MAX,
      VIRTIO_MMIO_DEVICE_FEATURES, VIRTIO_MMIO_QUEUE_READY,
      VIRTIO_MMIO_QUEUE_DESC_LOW, VIRTIO_MMIO_QUEUE_DESC_HIGH,
      VIRTIO_MMIO_QUEUE_USED_LOW, VIRTIO_MMIO_QUEUE_USED_HIGH,
      VIRTIO_MMIO_QUEUE_AVAIL_LOW, VIRTIO_MMIO_QUEUE_AVAIL_HIGH,
      VIRTIO_MMIO_CONFIG_GENERATION, h2]
  · simp [mmioWriteOffsets, VIRTIO_MMIO_DEVICE_FEATURES_SEL,
      VIRTIO_MMIO_DRIVER_FEATURES_SEL, VIRTIO_MMIO_QUEUE_SEL, VIRTIO_MMIO_STATUS,
      VIRTIO_MMIO_QUEUE_NUM, VIRTIO_MMIO_QUEUE_DESC_LOW,
      VIRTIO_MMIO_QUEUE_DESC_HIGH, VIRTIO_MMIO_QUEUE_USED_LOW,
      VIRTIO_MMIO_QUEUE_USED_HIGH, VIRTIO_MMIO_QUEUE_AVAIL_LOW,
      VIRTIO_MMIO_QUEUE_AVAIL_HIGH, VIRTIO_MMIO_INTERRUPT_ACK,
      VIRTIO_MMIO_DRIVER_FEATURES, VIRTIO_MMIO_QUEUE_READY,
      VIRTIO_MMIO_QUEUE_NOTIFY] at h2
    simp only [BaoMmio.io_event, BaoMmio.io_write, hvq, hmod, hc, if_neg hc, h1]
    norm_num [BAO_IO_READ, BAO_IO_WRITE, VIRTIO_MMIO_DEVICE_FEATURES_SEL,
      VIRTIO_MMIO_DRIVER_FEATURES_SEL, VIRTIO_MMIO_QUEUE_SEL, VIRTIO_MMIO_STATUS,
      VIRTIO_MMIO_QUEUE_NUM, VIRTIO_MMIO_QUEUE_DESC_LOW,
      VIRTIO_MMIO_QUEUE_DESC_HIGH, VIRTIO_MMIO_QUEUE_USED_LOW,
      VIRTIO_MMIO_QUEUE_USED_HIGH, VIRTIO_MMIO_QUEUE_AVAIL_LOW,
      VIRTIO_MMIO_QUEUE_AVAIL_HIGH, VIRTIO_MMIO_INTERRUPT_ACK,
      VIRTIO_MMIO_DRIVER_FEATURES, VIRTIO_MMIO_QUEUE_READY,
      VIRTIO_MMIO_QUEUE_NOTIFY, h2]

/-- C7, witness: on the fresh one-queue engine, an op-2 request yields
InvalidMmioDir 2, and READ and WRITE requests at the unmatched offset 0x18
yield the two InvalidMmioAddr errors, each as a returned error with state
unchanged. -/
theorem C7_witness :
    ((BaoMmio.new [256] 0).1.queue_sel < (BaoMmio.new [256] 0).1.vq.length ∧
      (0x18 : Nat) < VHOST_USER_CONFIG_OFFSET) ∧
    (BaoMmio.new [256] 0).1.io_event gdev0 ⟨0x18, BAO_IO_ASK, 9, 4⟩ =
      some ⟨(BaoMmio.new [256] 0).1, [], 9, some (.InvalidMmioDir (BAO_IO_ASK % 2 ^ 8))⟩ ∧
    (BaoMmio.new [256] 0).1.io_event gdev0 (rreq 0x18) =
      some ⟨(BaoMmio.new [256] 0).1, [], 0, some (.InvalidMmioAddr "read" 0x18)⟩ ∧
    (BaoMmio.new [256] 0).1.io_event gdev0 (wreq 0x18 7) =
      some ⟨(BaoMmio.new [256] 0).1, [], 7, some (.InvalidMmioAddr "write" 0x18)⟩ :=
  ⟨⟨by decide, by decide⟩,
   (C7_theorem (BaoMmio.new [256] 0).1 gdev0 ⟨0x18, BAO_IO_ASK, 9, 4⟩
      (by decide) (by decide)).1 (by decide) (by decide),
   (C7_theorem (BaoMmio.new [256] 0).1 gdev0 (rreq 0x18)
      (by decide) (by decide)).2.1 rfl (by decide),
   (C7_theorem (BaoMmio.new [256] 0).1 gdev0 (wreq 0x18 7)
      (by decide) (by decide)).2.2 rfl (by decide)⟩

/-- C1, amended.  First conjunct: a write of 1 to QUEUE_READY appends the
selected queue as one `(queue_sel, queue, kick)` entry to the pending list,
and invokes `activate` on the backend exactly when the resulting pending
list reaches length `queues_count`, draining it.  Nothing makes the entries
distinct (the same queue can be appended repeatedly), and because the list
is drained the activation can recur, so `activate` is neither guaranteed
unique per lifetime nor guaranteed to wait for `queues_count` distinct
ready queues - see the counterexample.  Second conjunct: when the guest of
a two-queue device readies queue 0 and then queue 1 exactly once each,
`activate` is called exactly once, after the second ready write, with the
two triples in index order. -/
theorem C1_theorem :
    (∀ (s s' : BaoMmio) (vq : VirtQueue),
      s.vq[s.queue_sel]? = some vq → s.init_vq vq = some s' →
      s.io_write VIRTIO_MMIO_QUEUE_READY 1 =
        some (if s'.queues.length = s'.queues_count
              then ⟨{ s' with queues := [] }, [.activate s'.queues], none⟩
              else ⟨s', [], none⟩) ∧
      s'.queues = s.queues ++ [(s.queue_sel, ⟨vq.size % 2 ^ 16,
        vq.desc_hi * 2 ^ 32 + vq.desc_lo, vq.avail_hi * 2 ^ 32 + vq.avail_lo,
        vq.used_hi * 2 ^ 32 + vq.used_lo, 0⟩, vq.kick)]) ∧
    ((runTrace (BaoMmio.new [256, 256] 0xa003e00).1 gdev0
        [wreq VIRTIO_MMIO_QUEUE_NUM 256, wreq VIRTIO_MMIO_QUEUE_READY 1,
         wreq VIRTIO_MMIO_QUEUE_SEL 1, wreq VIRTIO_MMIO_QUEUE_NUM 256,
         wreq VIRTIO_MMIO_QUEUE_READY 1]).map
      fun out => (out.2.1, out.2.2)) =
        some ([.activate [(0, ⟨256, 77, 0, 0, 0⟩, 0), (1, ⟨256, 77, 0, 0, 0⟩, 1)]],
              [none, none, none, none, none]) := by
  constructor
  · intro s s' vq hvq hinit
    constructor
    · simp only [BaoMmio.io_write, hvq, hinit]
      norm_num [VIRTIO_MMIO_QUEUE_READY, VIRTIO_MMIO_DEVICE_FEATURES_SEL,
        VIRTIO_MMIO_DRIVER_FEATURES_SEL, VIRTIO_MMIO_QUEUE_SEL,
        VIRTIO_MMIO_STATUS, VIRTIO_MMIO_QUEUE_NUM, VIRTIO_MMIO_QUEUE_DESC_LOW,
        VIRTIO_MMIO_QUEUE_DESC_HIGH, VIRTIO_MMIO_QUEUE_USED_LOW,
        VIRTIO_MMIO_QUEUE_USED_HIGH, VIRTIO_MMIO_QUEUE_AVAIL_LOW,
        VIRTIO_MMIO_QUEUE_AVAIL_HIGH, VIRTIO_MMIO_INTERRUPT_ACK,
        VIRTIO_MMIO_DRIVER_FEATURES, BaoMmio.activate_device]
      split_ifs <;> rfl
    · unfold BaoMmio.init_vq at hinit
      cases hnew : VQueue.new (vq.size % 2 ^ 16) with
      | none => rw [hnew] at hinit; simp at hinit
      | some q =>
        rw [hnew] at hinit
        simp only [Option.some_inj] at hinit
        have hq : q = ⟨vq.size % 2 ^ 16, 0, 0, 0, 0⟩ := by
          unfold VQueue.new at hnew
          split at hnew
          · simp at hnew
          · simpa using hnew.symm
        subst hq
        rw [← hinit]
  · decide

/-- C1, witness for the step conjunct: readying queue 0 of `c1s` appends
one pending entry and does not yet activate (1 of 2 queues pending). -/
theorem C1_witness :
    c1s.vq[c1s.queue_sel]? = some c1vq ∧
    c1s.init_vq c1vq = some c1next ∧
    c1s.io_write VIRTIO_MMIO_QUEUE_READY 1 =
      some (if c1next.queues.length = c1next.queues_count
            then ⟨{ c1next with queues := [] }, [.activate c1next.queues], none⟩
            else ⟨c1next, [], none⟩) ∧
    c1next.queues = c1s.queues ++ [(c1s.queue_sel, ⟨c1vq.size % 2 ^ 16,
      c1vq.desc_hi * 2 ^ 32 + c1vq.desc_lo, c1vq.avail_hi * 2 ^ 32 + c1vq.avail_lo,
      c1vq.used_hi * 2 ^ 32 + c1vq.used_lo, 0⟩, c1vq.kick)] :=
  ⟨by decide, by decide, C1_theorem.1 c1s c1next c1vq (by decide) (by decide)⟩

/-- Any `negotiate_features` call emitted by an `io_write` step comes from a
DRIVER_FEATURES write processed while `driver_features_sel ≠ 1`. -/
theorem negotiate_mem_io_write {s : BaoMmio} {off v : Nat} {out : WriteOut}
    {f p : Nat} (h : s.io_write off v = some out)
    (hm : BackendCall.negotiateFeatures f p ∈ out.calls) :
    off % 2 ^ 32 = VIRTIO_MMIO_DRIVER_FEATURES ∧ s.driver_features_sel ≠ 1 := by
  unfold BaoMmio.io_write at h
  cases hvq : s.vq[s.queue_sel]? with
  | none => rw [hvq] at h; simp at h
  | some vq =>
    rw [hvq] at h
    dsimp only at h
    by_cases hc1 : off % 2 ^ 32 = VIRTIO_MMIO_DEVICE_FEATURES_SEL
    · rw [if_pos hc1] at h; cases h; simp at hm
    rw [if_neg hc1] at h
    by_cases hc2 : off % 2 ^ 32 = VIRTIO_MMIO_DRIVER_FEATURES_SEL
    · rw [if_pos hc2] at h; cases h; simp at hm
    rw [if_neg hc2] at h
    by_cases hc3 : off % 2 ^ 32 = VIRTIO_MMIO_QUEUE_SEL
    · rw [if_pos hc3] at h; cases h; simp at hm
    rw [if_neg hc3] at h
    by_cases hc4 : off % 2 ^ 32 = VIRTIO_MMIO_STATUS
    · rw [if_pos hc4] at h; cases h; simp at hm
    rw [if_neg hc4] at h
    by_cases hc5 : off % 2 ^ 32 = VIRTIO_MMIO_QUEUE_NUM
    · rw [if_pos hc5] at h; cases h; simp at hm
    rw [if_neg hc5] at h
    by_cases hc6 : off % 2 ^ 32 = VIRTIO_MMIO_QUEUE_DESC_LOW
    · rw [if_pos hc6] at h; cases h; simp at hm
    rw [if_neg hc6] at h
    by_cases hc7 : off % 2 ^ 32 = VIRTIO_MMIO_QUEUE_DESC_HIGH
    · rw [if_pos hc7] at h; cases h; simp at hm
    rw [if_neg hc7] at h
    by_cases hc8 : off % 2 ^ 32 = VIRTIO_MMIO_QUEUE_USED_LOW
    · rw [if_pos hc8] at h; cases h; simp at hm
    rw [if_neg hc8] at h
    by_cases hc9 : off % 2 ^ 32 = VIRTIO_MMIO_QUEUE_USED_HIGH
    · rw [if_pos hc9] at h; cases h; simp at hm
    rw [if_neg hc9] at h
    by_cases hc10 : off % 2 ^ 32 = VIRTIO_MMIO_QUEUE_AVAIL_LOW
    · rw [if_pos hc10] at h; cases h; simp at hm
    rw [if_neg hc10] at h
    by_cases hc11 : off % 2 ^ 32 = VIRTIO_MMIO_QUEUE_AVAIL_HIGH
    · rw [if_pos hc11] at h; cases h; simp at hm
    rw [if_neg hc11] at h
    by_cases hc12 : off % 2 ^ 32 = VIRTIO_MMIO_INTERRUPT_ACK
    · rw [if_pos hc12] at h; cases h; simp at hm
    rw [if_neg hc12] at h
    by_cases hc13 : off % 2 ^ 32 = VIRTIO_MMIO_DRIVER_FEATURES
    · rw [if_pos hc13] at h
      by_cases hsh : 64 ≤ 32 * s.driver_features_sel
      · rw [if_pos hsh] at h; simp at h
      rw [if_neg hsh] at h
      by_cases hsel : s.driver_features_sel = 1
      · rw [if_pos hsel] at h
        by_cases hb1 : (s.driver_features |||
            (v % 2 ^ 32) <<< (32 * s.driver_features_sel)) &&&
            2 ^ VIRTIO_F_VERSION_1 = 0
        · rw [if_pos hb1] at h; cases h; simp at hm
        rw [if_neg hb1] at h
        by_cases hb2 : (s.driver_features |||
            (v % 2 ^ 32) <<< (32 * s.driver_features_sel)) &&&
            2 ^ VIRTIO_F_IOMMU_PLATFORM = 0
        · rw [if_pos hb2] at h; cases h; simp at hm
        rw [if_neg hb2] at h; cases h; simp at hm
      · rw [if_neg hsel] at h
        exact ⟨hc13, hsel⟩
    rw [if_neg hc13] at h
    by_cases hc14 : off % 2 ^ 32 = VIRTIO_MMIO_QUEUE_READY
    · rw [if_pos hc14] at h
      by_cases hv : v = 1
      · rw [if_pos hv] at h
        cases hinit : s.init_vq vq with
        | none => rw [hinit] at h; simp at h
        | some s2 =>
          rw [hinit] at h
          dsimp only at h
          by_cases hlen : s2.queues.length = s2.queues_count
          · rw [if_pos hlen] at h; cases h
            simp [BaoMmio.activate_device] at hm
          · rw [if_neg hlen] at h; cases h; simp at hm
      · rw [if_neg hv] at h; cases h; simp at hm
    rw [if_neg hc14] at h
    by_cases hc15 : off % 2 ^ 32 = VIRTIO_MMIO_QUEUE_NOTIFY
    · rw [if_pos hc15] at h; cases h; simp at hm
    rw [if_neg hc15] at h; cases h; simp at hm

/-- Any `negotiate_features` call emitted by an `io_event` step comes from a
register-space DRIVER_FEATURES write processed while
`driver_features_sel ≠ 1`. -/
theorem negotiate_mem_io_event {s : BaoMmio} {g : Generic} {req : BaoIoRequest}
    {out : EventOut} {f p : Nat} (h : s.io_event g req = some out)
    (hm : BackendCall.negotiateFeatures f p ∈ out.calls) :
    req.op = BAO_IO_WRITE ∧ req.reg_off < VHOST_USER_CONFIG_OFFSET ∧
    req.reg_off % 2 ^ 32 = VIRTIO_MMIO_DRIVER_FEATURES ∧
    s.driver_features_sel ≠ 1 := by
  unfold BaoMmio.io_event at h
  by_cases hcfg : VHOST_USER_CONFIG_OFFSET ≤ req.reg_off
  · rw [if_pos hcfg] at h
    by_cases hr : req.op = BAO_IO_READ
    · rw [if_pos hr] at h; cases h; simp at hm
    rw [if_neg hr] at h
    by_cases hw : req.op = BAO_IO_WRITE
    · rw [if_pos hw] at h; cases h; simp at hm
    · rw [if_neg hw] at h; cases h; simp at hm
  · rw [if_neg hcfg] at h
    by_cases hr : req.op = BAO_IO_READ
    · rw [if_pos hr] at h
      cases hio : s.io_read g req.reg_off with
      | none => rw [hio] at h; simp at h
      | some r =>
        rw [hio] at h
        cases r <;> (dsimp only at h; cases h; simp at hm)
    rw [if_neg hr] at h
    by_cases hw : req.op = BAO_IO_WRITE
    · rw [if_pos hw] at h
      cases hio : s.io_write req.reg_off req.value with
      | none => rw [hio] at h; simp at h
      | some w =>
        rw [hio] at h
        dsimp only at h
        cases h
        have hchar := negotiate_mem_io_write hio (by simpa using hm)
        exact ⟨hw, not_le.mp hcfg, hchar.1, hchar.2⟩
    · rw [if_neg hw] at h; cases h; simp at hm

/-- C2, counterexample companion theorem (amended claim).  First conjunct:
the failing DRIVER_FEATURES upper-word write itself ORs the value into
`driver_features`, makes no backend call and returns
`MmioLegacyNotSupported` or `IommuPlatformNotSupported` - but the error is
not latched.  Second conjunct: a `negotiate_features` call can only be
emitted by a later DRIVER_FEATURES write arriving with
`driver_features_sel ≠ 1`.  Third conjunct: consequently the Device never
calls `negotiate_features` during any subsequent request sequence that
contains no DRIVER_FEATURES write. -/
theorem C2_theorem :
    (∀ (s : BaoMmio) (vq : VirtQueue) (v : Nat),
      s.vq[s.queue_sel]? = some vq → s.driver_features_sel = 1 →
      ((s.driver_features ||| ((v % 2 ^ 32) <<< 32)) &&& 2 ^ VIRTIO_F_VERSION_1 = 0 ∨
       (s.driver_features ||| ((v % 2 ^ 32) <<< 32)) &&& 2 ^ VIRTIO_F_IOMMU_PLATFORM = 0) →
      ∃ e, s.io_write VIRTIO_MMIO_DRIVER_FEATURES v =
          some ⟨{ s with driver_features :=
                    s.driver_features ||| ((v % 2 ^ 32) <<< 32) }, [], some e⟩ ∧
        (e = .MmioLegacyNotSupported ∨ e = .IommuPlatformNotSupported)) ∧
    (∀ (s : BaoMmio) (g : Generic) (req : BaoIoRequest) (out : EventOut) (f p : Nat),
      s.io_event g req = some out →
      BackendCall.negotiateFeatures f p ∈ out.calls →
      req.op = BAO_IO_WRITE ∧ req.reg_off < VHOST_USER_CONFIG_OFFSET ∧
      req.reg_off % 2 ^ 32 = VIRTIO_MMIO_DRIVER_FEATURES ∧
      s.driver_features_sel ≠ 1) ∧
    (∀ (g : Generic) (reqs : List BaoIoRequest) (s s' : BaoMmio)
       (calls : List BackendCall) (rets : List (Option Error)),
      runTrace s g reqs = some (s', calls, rets) →
      (∀ req ∈ reqs, req.op = BAO_IO_WRITE →
        req.reg_off % 2 ^ 32 ≠ VIRTIO_MMIO_DRIVER_FEATURES) →
      ∀ f p, BackendCall.negotiateFeatures f p ∉ calls) := by
  refine ⟨?_, fun s g req out f p h hm => negotiate_mem_io_event h hm, ?_⟩
  · intro s vq v hvq hsel hbad
    simp only [BaoMmio.io_write, hvq, hsel]
    norm_num [VIRTIO_MMIO_DRIVER_FEATURES, VIRTIO_MMIO_DEVICE_FEATURES_SEL,
      VIRTIO_MMIO_DRIVER_FEATURES_SEL, VIRTIO_MMIO_QUEUE_SEL,
      VIRTIO_MMIO_STATUS, VIRTIO_MMIO_QUEUE_NUM, VIRTIO_MMIO_QUEUE_DESC_LOW,
      VIRTIO_MMIO_QUEUE_DESC_HIGH, VIRTIO_MMIO_QUEUE_USED_LOW,
      VIRTIO_MMIO_QUEUE_USED_HIGH, VIRTIO_MMIO_QUEUE_AVAIL_LOW,
      VIRTIO_MMIO_QUEUE_AVAIL_HIGH, VIRTIO_MMIO_INTERRUPT_ACK]
    norm_num at hbad
    split_ifs with hb1 hb2
    · exact ⟨.MmioLegacyNotSupported, rfl, Or.inl rfl⟩
    · exact ⟨.IommuPlatformNotSupported, rfl, Or.inr rfl⟩
    · rcases hbad with hbad | hbad
      · exact absurd hbad hb1
      · exact absurd hbad hb2
  · intro g reqs
    induction reqs with
    | nil =>
      intro s s' calls rets h hreq f p
      unfold runTrace at h
      cases h
      simp
    | cons req rest ih =>
      intro s s' calls rets h hreq f p hmem
      unfold runTrace at h
      cases hev : s.io_event g req with
      | none => rw [hev] at h; simp at h
      | some out =>
        rw [hev] at h
        dsimp only at h
        cases hrest : runTrace out.state g rest with
        | none => rw [hrest] at h; simp at h
        | some trip =>
          obtain ⟨s2, calls2, rets2⟩ := trip
          rw [hrest] at h
          dsimp only at h
          cases h
          rcases List.mem_append.mp hmem with hin | hin
          · have hchar := negotiate_mem_io_event hev hin
            exact hreq req (by simp) hchar.1 hchar.2.2.1
          · exact ih out.state _ _ _ hrest
              (fun r hr => hreq r (by simp [hr])) f p hin

/-- C2, witness.  On the one-queue engine with `driver_features_sel = 1`, a
DRIVER_FEATURES write of 0 fails without a backend call; the fresh engine's
DRIVER_FEATURES write of 5 emits a negotiate call, and the theorem pins it
to a selector-not-1 DRIVER_FEATURES write; and a QUEUE_SEL-only trace emits
no negotiate call. -/
theorem C2_witness :
    ({ (BaoMmio.new [256] 0).1 with driver_features_sel := 1 }.vq[
        { (BaoMmio.new [256] 0).1 with driver_features_sel := 1 }.queue_sel]? =
        some ((BaoMmio.new [256] 0).1.vq.getD 0 ⟨0,0,0,0,0,0,0,0,0,0⟩) ∧
      (∃ e, { (BaoMmio.new [256] 0).1 with driver_features_sel := 1 }.io_write
            VIRTIO_MMIO_DRIVER_FEATURES 0 =
          some ⟨{ { (BaoMmio.new [256] 0).1 with driver_features_sel := 1 } with
                  driver_features :=
                    { (BaoMmio.new [256] 0).1 with
                      driver_features_sel := 1 }.driver_features |||
                      ((0 % 2 ^ 32) <<< 32) }, [], some e⟩ ∧
        (e = .MmioLegacyNotSupported ∨ e = .IommuPlatformNotSupported))) ∧
    ((BaoMmio.new [256] 0).1.io_event gdev0 (wreq VIRTIO_MMIO_DRIVER_FEATURES 5) =
        some ⟨{ (BaoMmio.new [256] 0).1 with driver_features := 5 },
              [.negotiateFeatures 5 0], 5, none⟩ ∧
      ((wreq VIRTIO_MMIO_DRIVER_FEATURES 5).op = BAO_IO_WRITE ∧
       (wreq VIRTIO_MMIO_DRIVER_FEATURES 5).reg_off < VHOST_USER_CONFIG_OFFSET ∧
       (wreq VIRTIO_MMIO_DRIVER_FEATURES 5).reg_off % 2 ^ 32 =
         VIRTIO_MMIO_DRIVER_FEATURES ∧
       (BaoMmio.new [256] 0).1.driver_features_sel ≠ 1)) ∧
    (runTrace (BaoMmio.new [256] 0).1 gdev0 [wreq VIRTIO_MMIO_QUEUE_SEL 0] =
        some ({ (BaoMmio.new [256] 0).1 with queue_sel := 0 }, [], [none]) ∧
      ∀ f p, BackendCall.negotiateFeatures f p ∉ ([] : List BackendCall)) :=
  ⟨⟨by decide,
    C2_theorem.1 { (BaoMmio.new [256] 0).1 with driver_features_sel := 1 }
      ((BaoMmio.new [256] 0).1.vq.getD 0 ⟨0,0,0,0,0,0,0,0,0,0⟩) 0
      (by decide) rfl (Or.inl (by decide))⟩,
   ⟨by decide,
    C2_theorem.2.1 (BaoMmio.new [256] 0).1 gdev0
      (wreq VIRTIO_MMIO_DRIVER_FEATURES 5)
      ⟨{ (BaoMmio.new [256] 0).1 with driver_features := 5 },
        [.negotiateFeatures 5 0], 5, none⟩ 5 0 (by decide) (by decide)⟩,
   ⟨by decide,
    C2_theorem.2.2 gdev0 [wreq VIRTIO_MMIO_QUEUE_SEL 0] (BaoMmio.new [256] 0).1
      { (BaoMmio.new [256] 0).1 with queue_sel := 0 } [] [none]
      (by decide) (by decide)⟩⟩

/-- Replacing a list entry by one with the same kick token leaves the
kick-token image of the list unchanged. -/
theorem map_kick_set {l : List VirtQueue} {i : Nat} {q q' : VirtQueue}
    (h : l[i]? = some q) (hk : q'.kick = q.kick) :
    (l.set i q').map VirtQueue.kick = l.map VirtQueue.kick := by
  apply List.ext_getElem?
  intro n
  rw [List.getElem?_map, List.getElem?_map]
  by_cases hin : i = n
  · subst hin
    rw [List.getElem?_set_self', h]
    simp [hk]
  · rw [List.getElem?_set_ne hin]

/-- A non-panicking `io_write` step never changes the MMIO base address,
the number of virtqueues, or any kick eventfd. -/
theorem io_write_preserves {s : BaoMmio} {off v : Nat} {out : WriteOut}
    (h : s.io_write off v = some out) :
    out.state.addr = s.addr ∧
    out.state.vq.map VirtQueue.kick = s.vq.map VirtQueue.kick := by
  unfold BaoMmio.io_write at h
  cases hvq : s.vq[s.queue_sel]? with
  | none => rw [hvq] at h; simp at h
  | some vq =>
    rw [hvq] at h
    dsimp only at h
    by_cases hc1 : off % 2 ^ 32 = VIRTIO_MMIO_DEVICE_FEATURES_SEL
    · rw [if_pos hc1] at h; cases h; exact ⟨rfl, rfl⟩
    rw [if_neg hc1] at h
    by_cases hc2 : off % 2 ^ 32 = VIRTIO_MMIO_DRIVER_FEATURES_SEL
    · rw [if_pos hc2] at h; cases h; exact ⟨rfl, rfl⟩
    rw [if_neg hc2] at h
    by_cases hc3 : off % 2 ^ 32 = VIRTIO_MMIO_QUEUE_SEL
    · rw [if_pos hc3] at h; cases h; exact ⟨rfl, rfl⟩
    rw [if_neg hc3] at h
    by_cases hc4 : off % 2 ^ 32 = VIRTIO_MMIO_STATUS
    · rw [if_pos hc4] at h; cases h; exact ⟨rfl, rfl⟩
    rw [if_neg hc4] at h
    by_cases hc5 : off % 2 ^ 32 = VIRTIO_MMIO_QUEUE_NUM
    · rw [if_pos hc5] at h; cases h
      exact ⟨rfl, map_kick_set hvq rfl⟩
    rw [if_neg hc5] at h
    by_cases hc6 : off % 2 ^ 32 = VIRTIO_MMIO_QUEUE_DESC_LOW
    · rw [if_pos hc6] at h; cases h
      exact ⟨rfl, map_kick_set hvq rfl⟩
    rw [if_neg hc6] at h
    by_cases hc7 : off % 2 ^ 32 = VIRTIO_MMIO_QUEUE_DESC_HIGH
    · rw [if_pos hc7] at h; cases h
      exact ⟨rfl, map_kick_set hvq rfl⟩
    rw [if_neg hc7] at h
    by_cases hc8 : off % 2 ^ 32 = VIRTIO_MMIO_QUEUE_USED_LOW
    · rw [if_pos hc8] at h; cases h
      exact ⟨rfl, map_kick_set hvq rfl⟩
    rw [if_neg hc8] at h
    by_cases hc9 : off % 2 ^ 32 = VIRTIO_MMIO_QUEUE_USED_HIGH
    · rw [if_pos hc9] at h; cases h
      exact ⟨rfl, map_kick_set hvq rfl⟩
    rw [if_neg hc9] at h
    by_cases hc10 : off % 2 ^ 32 = VIRTIO_MMIO_QUEUE_AVAIL_LOW
    · rw [if_pos hc10] at h; cases h
      exact ⟨rfl, map_kick_set hvq rfl⟩
    rw [if_neg hc10] at h
    by_cases hc11 : off % 2 ^ 32 = VIRTIO_MMIO_QUEUE_AVAIL_HIGH
    · rw [if_pos hc11] at h; cases h
      exact ⟨rfl, map_kick_set hvq rfl⟩
    rw [if_neg hc11] at h
    by_cases hc12 : off % 2 ^ 32 = VIRTIO_MMIO_INTERRUPT_ACK
    · rw [if_pos hc12] at h; cases h; exact ⟨rfl, rfl⟩
    rw [if_neg hc12] at h
    by_cases hc13 : off % 2 ^ 32 = VIRTIO_MMIO_DRIVER_FEATURES
    · rw [if_pos hc13] at h
      by_cases hsh : 64 ≤ 32 * s.driver_features_sel
      · rw [if_pos hsh] at h; simp at h
      rw [if_neg hsh] at h
      by_cases hsel : s.driver_features_sel = 1
      · rw [if_pos hsel] at h
        by_cases hb1 : (s.driver_features |||
            (v % 2 ^ 32) <<< (32 * s.driver_features_sel)) &&&
            2 ^ VIRTIO_F_VERSION_1 = 0
        · rw [if_pos hb1] at h; cases h; exact ⟨rfl, rfl⟩
        rw [if_neg hb1] at h
        by_cases hb2 : (s.driver_features |||
            (v % 2 ^ 32) <<< (32 * s.driver_features_sel)) &&&
            2 ^ VIRTIO_F_IOMMU_PLATFORM = 0
        · rw [if_pos hb2] at h; cases h; exact ⟨rfl, rfl⟩
        rw [if_neg hb2] at h; cases h; exact ⟨rfl, rfl⟩
      · rw [if_neg hsel] at h; cases h; exact ⟨rfl, rfl⟩
    rw [if_neg hc13] at h
    by_cases hc14 : off % 2 ^ 32 = VIRTIO_MMIO_QUEUE_READY
    · rw [if_pos hc14] at h
      by_cases hv : v = 1
      · rw [if_pos hv] at h
        cases hinit : s.init_vq vq with
        | none => rw [hinit] at h; simp at h
        | some s2 =>
          have hs2 : s2.addr = s.addr ∧
              s2.vq.map VirtQueue.kick = s.vq.map VirtQueue.kick := by
            unfold BaoMmio.init_vq at hinit
            cases hnew : VQueue.new (vq.size % 2 ^ 16) with
            | none => rw [hnew] at hinit; simp at hinit
            | some q =>
              rw [hnew] at hinit
              simp only [Option.some_inj] at hinit
              rw [← hinit]
              exact ⟨rfl, map_kick_set hvq rfl⟩
          rw [hinit] at h
          dsimp only at h
          by_cases hlen : s2.queues.length = s2.queues_count
          · rw [if_pos hlen] at h; cases h
            exact ⟨hs2.1, hs2.2⟩
          · rw [if_neg hlen] at h; cases h; exact hs2
      · rw [if_neg hv] at h; cases h
        exact ⟨rfl, rfl⟩
    rw [if_neg hc14] at h
    by_cases hc15 : off % 2 ^ 32 = VIRTIO_MMIO_QUEUE_NOTIFY
    · rw [if_pos hc15] at h; cases h; exact ⟨rfl, rfl⟩
    rw [if_neg hc15] at h; cases h; exact ⟨rfl, rfl⟩

/-- A non-panicking `io_event` step never changes the MMIO base address,
the number of virtqueues, or any kick eventfd. -/
theorem io_event_preserves {s : BaoMmio} {g : Generic} {req : BaoIoRequest}
    {out : EventOut} (h : s.io_event g req = some out) :
    out.state.addr = s.addr ∧
    out.state.vq.map VirtQueue.kick = s.vq.map VirtQueue.kick := by
  unfold BaoMmio.io_event at h
  by_cases hcfg : VHOST_USER_CONFIG_OFFSET ≤ req.reg_off
  · rw [if_pos hcfg] at h
    by_cases hr : req.op = BAO_IO_READ
    · rw [if_pos hr] at h; cases h; exact ⟨rfl, rfl⟩
    rw [if_neg hr] at h
    by_cases hw : req.op = BAO_IO_WRITE
    · rw [if_pos hw] at h; cases h; exact ⟨rfl, rfl⟩
    · rw [if_neg hw] at h; cases h; exact ⟨rfl, rfl⟩
  · rw [if_neg hcfg] at h
    by_cases hr : req.op = BAO_IO_READ
    · rw [if_pos hr] at h
      cases hio : s.io_read g req.reg_off with
      | none => rw [hio] at h; simp at h
      | some r =>
        rw [hio] at h
        cases r <;> (dsimp only at h; cases h; exact ⟨rfl, rfl⟩)
    rw [if_neg hr] at h
    by_cases hw : req.op = BAO_IO_WRITE
    · rw [if_pos hw] at h
      cases hio : s.io_write req.reg_off req.value with
      | none => rw [hio] at h; simp at h
      | some w =>
        rw [hio] at h
        dsimp only at h
        cases h
        exact io_write_preserves hio
    · rw [if_neg hw] at h; cases h; exact ⟨rfl, rfl⟩

/-- No request trace changes the MMIO base address, the number of
virtqueues, or any kick eventfd. -/
theorem runTrace_preserves {g : Generic} :
    ∀ (reqs : List BaoIoRequest) (s s' : BaoMmio) (calls : List BackendCall)
      (rets : List (Option Error)),
      runTrace s g reqs = some (s', calls, rets) →
      s'.addr = s.addr ∧ s'.vq.map VirtQueue.kick = s.vq.map VirtQueue.kick := by
  intro reqs
  induction reqs with
  | nil =>
    intro s s' calls rets h
    unfold runTrace at h
    cases h
    exact ⟨rfl, rfl⟩
  | cons req rest ih =>
    intro s s' calls rets h
    unfold runTrace at h
    cases hev : s.io_event g req with
    | none => rw [hev] at h; simp at h
    | some out =>
      rw [hev] at h
      dsimp only at h
      cases hrest : runTrace out.state g rest with
      | none => rw [hrest] at h; simp at h
      | some trip =>
        obtain ⟨s2, calls2, rets2⟩ := trip
        rw [hrest] at h
        dsimp only at h
        cases h
        have h1 := io_event_preserves hev
        have h2 := ih out.state _ _ _ hrest
        exact ⟨h2.1.trans h1.1, h2.2.trans h1.2⟩

/-- C5.  After construction over any queue-size list and any guest MMIO
activity, the DEASSIGN ioeventfd records issued by drop are exactly the
ASSIGN records of construction with the flag replaced by DEASSIGN: one per
installed ioeventfd, in order, with the same fd, the same address
`mmio_base + QUEUE_NOTIFY`, the same length 4 and the same data k. -/
theorem C5_theorem (sizes : List Nat) (addr : Nat) (g : Generic)
    (reqs : List BaoIoRequest) (s' : BaoMmio) (calls : List BackendCall)
    (rets : List (Option Error))
    (hrun : runTrace (BaoMmio.new sizes addr).1 g reqs = some (s', calls, rets)) :
    s'.dropDeassigns = (BaoMmio.new sizes addr).2.map
      (fun e => { e with flags := BAO_IOEVENTFD_FLAG_DEASSIGN }) := by
  have hpres := runTrace_preserves reqs (BaoMmio.new sizes addr).1 s' calls rets hrun
  have haddr : s'.addr = addr := hpres.1
  have hkick : s'.vq.map VirtQueue.kick =
      (BaoMmio.new sizes addr).1.vq.map VirtQueue.kick := hpres.2
  apply List.ext_getElem?
  intro n
  have hk : s'.vq[n]?.map VirtQueue.kick =
      ((BaoMmio.new sizes addr).1.vq[n]?).map VirtQueue.kick := by
    rw [← List.getElem?_map, ← List.getElem?_map, hkick]
  unfold BaoMmio.new at hk
  dsimp only at hk
  simp only [List.getElem?_map, List.getElem?_enum, Option.map_map,
    Function.comp] at hk
  unfold BaoMmio.dropDeassigns BaoMmio.new
  dsimp only
  simp only [List.getElem?_map, List.getElem?_enum, Option.map_map,
    Function.comp]
  cases hsz : sizes[n]? with
  | none =>
    rw [hsz] at hk
    simp only [Option.map_none'] at hk
    rw [Option.map_eq_none'] at hk
    simp [hk, hsz]
  | some sz =>
    rw [hsz] at hk
    simp only [Option.map_some'] at hk
    rw [Option.map_eq_some'] at hk
    obtain ⟨q, hq, hqk⟩ := hk
    rw [hq]
    simp only [Function.comp] at hqk
    simp [haddr, hqk]


/-- C5, witness: a one-queue engine at base 7 processes a STATUS write; on
drop it deassigns the single ioeventfd with the tuple it was assigned
with. -/
theorem C5_witness :
    runTrace (BaoMmio.new [256] 7).1 gdev0 [wreq VIRTIO_MMIO_STATUS 4] =
      some ({ (BaoMmio.new [256] 7).1 with status := 4 }, [], [none]) ∧
    { (BaoMmio.new [256] 7).1 with status := 4 }.dropDeassigns =
      (BaoMmio.new [256] 7).2.map
        (fun e => { e with flags := BAO_IOEVENTFD_FLAG_DEASSIGN }) :=
  ⟨by decide,
    C5_theorem [256] 7 gdev0 [wreq VIRTIO_MMIO_STATUS 4]
      { (BaoMmio.new [256] 7).1 with status := 4 } [] [none] (by decide)⟩

/-- Bumping the index of the registry entry found under a compatible
string makes the next lookup of that string find the bumped entry. -/
theorem find_store {c : String} (d d' : DeviceInfo)
    (hc : d'.compatible = d.compatible) :
    ∀ (reg : Registry), reg.find c = some d → (reg.store d').find c = some d' := by
  intro reg
  induction reg with
  | nil => intro h; simp [Registry.find] at h
  | cons e rest ih =>
    intro h
    have h2 : List.find? (fun x => x.compatible == c) (e :: rest) = some d := h
    have hdc : (d.compatible == c) = true := by
      have h3 := List.find?_some h2
      simpa using h3
    have hdc' : (d'.compatible == c) = true := by
      rw [hc]; exact hdc
    unfold Registry.find at h
    unfold Registry.find Registry.store
    simp only [List.map_cons]
    by_cases he : (e.compatible == c) = true
    · simp only [List.find?, he] at h
      have hde : e = d := Option.some_inj.mp h
      have hed' : (e.compatible == d'.compatible) = true := by
        rw [hc, hde]
        simp
      rw [if_pos hed']
      simp only [List.find?, hdc']
    · have hfe : (e.compatible == c) = false := by
        simpa using he
      simp only [List.find?, hfe] at h
      have hed' : ¬ (e.compatible == d'.compatible) = true := by
        intro hed
        apply he
        have h1 : e.compatible = d'.compatible := by simpa using hed
        rw [h1]; exact hdc'
      rw [if_neg hed']
      simp only [List.find?, hfe]
      exact ih h

/-- If the registry holds the class of `dev_id` at index i, then n
successive device creations of that class receive the socket suffixes
i, i+1, ..., i+n-1 in order. -/
theorem lookupRun_socks (dev_id : Nat) (sp name : String) :
    ∀ (n : Nat) (reg : Registry) (i : Nat),
      reg.find ("virtio,device" ++ toString dev_id) =
        some ⟨name, "virtio,device" ++ toString dev_id, i⟩ →
      (lookupRun reg dev_id sp n).map Prod.fst =
        some ((List.range n).map fun k => sp ++ name ++ ".sock" ++ toString (i + k)) := by
  intro n
  induction n with
  | zero => intro reg i h; simp [lookupRun]
  | succ n ih =>
    intro reg i h
    simp only [lookupRun, deviceLookup, h]
    have hnext :=
      find_store ⟨name, "virtio,device" ++ toString dev_id, i⟩
        ⟨name, "virtio,device" ++ toString dev_id, i + 1⟩ rfl reg h
    have hih := ih _ (i + 1) hnext
    cases hrun : lookupRun (Registry.store reg ⟨name, "virtio,device" ++ toString dev_id, i + 1⟩) dev_id sp n with
    | none => rw [hrun] at hih; simp at hih
    | some p =>
      rw [hrun] at hih
      simp only [Option.map_some', Option.some_inj] at hih
      simp only [Option.map_some', Option.some_inj]
      rw [hih, List.range_succ_eq_map]
      simp only [List.map_cons, List.map_map]
      congr 1
      apply List.map_congr_left
      intro k hk
      have harith : i + 1 + k = i + (k + 1) := by omega
      rw [harith]
      rfl

/-- A successful `FrontendGuests::add_device` hands the new device the
socket path built from the per-class index found in the registry, and
stores the registry back with that index incremented - independent of the
guest id. -/
theorem addDevice_ok (fg : List BaoGuest) (reg : Registry)
    (gid did dev_addr : Nat) (sp name : String) (i : Nat)
    (h : reg.find ("virtio,device" ++ toString did) =
      some ⟨name, "virtio,device" ++ toString did, i⟩) :
    (FrontendGuests.add_device fg reg gid did dev_addr sp).2.2 =
      .ok (sp ++ name ++ ".sock" ++ toString i) ∧
    (FrontendGuests.add_device fg reg gid did dev_addr sp).2.1 =
      reg.store ⟨name, "virtio,device" ++ toString did, i + 1⟩ := by
  unfold FrontendGuests.add_device BaoGuest.add_device deviceLookup
  cases hidx : findGuestIdx fg gid with
  | none =>
    simp only [h]
    constructor
    · simp [List.getLast?_concat]
    · trivial
  | some j =>
    simp only [h]
    constructor
    · simp [List.getLast?_concat]
    · trivial

/-- C8.  First conjunct: from the initial registry (per-class index 0),
the n-th device of a class created in order receives socket path
`{prefix}{name}.sock{n-1}`: the k-th entry of the socket list is
`.sock{k}`.  Second conjunct: the index is shared process-wide across
Guests - two `add_device` calls for the same class with arbitrary (also
different) guest ids receive consecutive suffixes i and i+1. -/
theorem C8_theorem :
    (∀ (supported : List (String × Nat)) (dev_id n : Nat) (sp name : String),
      (initRegistry supported).find ("virtio,device" ++ toString dev_id) =
        some (DeviceInfo.init name dev_id) →
      (lookupRun (initRegistry supported) dev_id sp n).map Prod.fst =
        some ((List.range n).map fun k => sp ++ name ++ ".sock" ++ toString k)) ∧
    (∀ (fg : List BaoGuest) (reg : Registry) (gid1 gid2 did a1 a2 i : Nat)
       (sp name : String),
      reg.find ("virtio,device" ++ toString did) =
        some ⟨name, "virtio,device" ++ toString did, i⟩ →
      (FrontendGuests.add_device fg reg gid1 did a1 sp).2.2 =
        .ok (sp ++ name ++ ".sock" ++ toString i) ∧
      (FrontendGuests.add_device
          (FrontendGuests.add_device fg reg gid1 did a1 sp).1
          (FrontendGuests.add_device fg reg gid1 did a1 sp).2.1
          gid2 did a2 sp).2.2 =
        .ok (sp ++ name ++ ".sock" ++ toString (i + 1))) := by
  constructor
  · intro supported dev_id n sp name h
    have := lookupRun_socks dev_id sp name n (initRegistry supported) 0 h
    simpa using this
  · intro fg reg gid1 gid2 did a1 a2 i sp name h
    have h1 := addDevice_ok fg reg gid1 did a1 sp name i h
    have hfind2 := find_store ⟨name, "virtio,device" ++ toString did, i⟩
      ⟨name, "virtio,device" ++ toString did, i + 1⟩ rfl reg h
    refine ⟨h1.1, ?_⟩
    have h2 := addDevice_ok (FrontendGuests.add_device fg reg gid1 did a1 sp).1
      (FrontendGuests.add_device fg reg gid1 did a1 sp).2.1 gid2 did a2 sp name
      (i + 1) (h1.2 ▸ hfind2)
    exact h2.1

/-- C8, witness: three rng devices created from the sample registry get
sock0, sock1, sock2; and two frontend adds for guests 0 and 1 get sock0
then sock1. -/
theorem C8_witness :
    ((initRegistry sampleSupported).find ("virtio,device" ++ toString 4) =
      some (DeviceInfo.init "rng" 4) ∧
     (lookupRun (initRegistry sampleSupported) 4 "/root/" 3).map Prod.fst =
      some ((List.range 3).map fun k => "/root/" ++ "rng" ++ ".sock" ++ toString k)) ∧
    ((FrontendGuests.add_device [] (initRegistry sampleSupported) 0 4 10 "/root/").2.2 =
      .ok ("/root/" ++ "rng" ++ ".sock" ++ toString 0) ∧
     (FrontendGuests.add_device
        (FrontendGuests.add_device [] (initRegistry sampleSupported) 0 4 10 "/root/").1
        (FrontendGuests.add_device [] (initRegistry sampleSupported) 0 4 10 "/root/").2.1
        1 4 11 "/root/").2.2 =
      .ok ("/root/" ++ "rng" ++ ".sock" ++ toString (0 + 1))) :=
  ⟨⟨by decide, C8_theorem.1 sampleSupported 4 3 "/root/" "rng" (by decide)⟩,
   C8_theorem.2 [] (initRegistry sampleSupported) 0 1 4 10 11 0 "/root/" "rng"
     (by decide)⟩

end BaoVhost
